import Mathlib

/-!
# Verification of the `timelock` repository against its specification

Shallow embedding of the Rust sources of `ideal-lab5/timelock`:

* `timelock/src/ibe/utils.rs`   — hash utilities and the fixed-width XOR;
* `timelock/src/ibe/fullident.rs` — BF-IBE FullIdent (`Identity`, `encrypt`,
  `extract`, `IBESecret.decrypt`, `Ciphertext`, `Input`);
* `timelock/src/lib.rs`         — `Message`;
* `timelock-ffi/src/lib.rs`     — the C ABI wrappers (`timelock_create_drand_identity`,
  `timelock_estimate_ciphertext_size`, `timelock_decrypt`, last-error handling).

Bytes are modelled as `List Nat` (one entry per `u8`).  External cryptographic
primitives (SHA-256 from the `sha2` crate, SHAKE-128 from `sha3`, the BLS12-381
pairing, hash-to-curve and point serialization from `arkworks`) are treated as
abstract parameters, collected in an `Env` record; theorems assume only the
properties the source relies on (e.g. SHA-256 digests have 32 bytes, the
pairing is bilinear).  A Rust panic (out-of-bounds slice index) is modelled by
`Option.none`.
-/

namespace Timelock

/-- Byte strings: one `Nat` per `u8`. -/
abbrev Bytes := List Nat

/-- `HASH_LENGTH` from `timelock/src/lib.rs`: the crate-wide hash size, 32
bytes (`Hash = [u8; 32]`). -/
def HASH_LENGTH : Nat := 32

/-- `cross_product_const::<N>` from `timelock/src/ibe/utils.rs`.

The source XORs the first `N` bytes of `a` and `b` into a fresh `[u8; N]`,
working on 8-byte chunks via `u64::from_ne_bytes`/`to_ne_bytes` and a
byte-wise remainder loop; XOR of the `u64` chunks is observably the
byte-wise XOR of the chunk bytes, so the result is the byte-wise XOR of the
first `N` bytes.  Every index `0..N-1` of both `a` and `b` is read (by the
chunk loop or the remainder loop), so when `a` or `b` has fewer than `N`
bytes the slice indexing panics; the panic is modelled by `none`.  There is
no error return: the Rust signature is `fn(a: &[u8], b: &[u8]) -> [u8; N]`. -/
def cross_product_const (N : Nat) (a b : Bytes) : Option Bytes :=
  if N ≤ a.length ∧ N ≤ b.length then
    some (List.zipWith Nat.xor (a.take N) (b.take N))
  else
    none

/-- `InputError` from `timelock/src/ibe/fullident.rs`. -/
inductive InputError where
  | InvalidLength
  deriving DecidableEq, Repr

/-- `IbeError` from `timelock/src/ibe/fullident.rs`. -/
inductive IbeError where
  | DecryptionFailed
  deriving DecidableEq, Repr

/-- `Input<E>` from `timelock/src/ibe/fullident.rs`: a byte buffer built from a
`SerializedFieldElement = [u8; 32]` (the `PhantomData` marker is dropped). -/
structure Input where
  data : Bytes
  deriving DecidableEq, Repr

/-- `Input::new` from `timelock/src/ibe/fullident.rs`: wraps the 32-byte array
and unconditionally returns `Ok`. -/
def Input.new (data : Bytes) : Except InputError Input :=
  Except.ok { data := data }

/-- `Input::as_bytes`. -/
def Input.as_bytes (i : Input) : Bytes := i.data

/-! ## FFI constants and size estimation (`timelock-ffi/src/lib.rs`) -/

/-- `BLS_G1_SIZE = <TinyBLS381 as EngineBLS>::SIGNATURE_SERIALIZED_SIZE`.
The `TinyBLS381` engine instance lives in `timelock/src/engines/drand.rs`.
Modelled from the spec: `SIGNATURE_SERIALIZED_SIZE = 48` (spec section 4.2,
G1 compressed point), corroborated in-source by the comments at
`timelock-ffi/src/lib.rs:50-58` and by `validate_cryptographic_constants`,
which asserts equality with the 48-byte compressed size of `G1Affine`. -/
def BLS_G1_SIZE : Nat := 48

/-- `BLS_G2_SIZE = <TinyBLS381 as EngineBLS>::PUBLICKEY_SERIALIZED_SIZE`.
Modelled from the spec: `PUBLICKEY_SERIALIZED_SIZE = 96` (spec section 4.2,
G2 compressed point), corroborated by `validate_cryptographic_constants`. -/
def BLS_G2_SIZE : Nat := 96

/-- `AES_GCM_IV_SIZE` from `timelock-ffi/src/lib.rs`. -/
def AES_GCM_IV_SIZE : Nat := 12

/-- `AES_GCM_TAG_SIZE` from `timelock-ffi/src/lib.rs`. -/
def AES_GCM_TAG_SIZE : Nat := 16

/-- `SERIALIZATION_OVERHEAD` from `timelock-ffi/src/lib.rs`. -/
def SERIALIZATION_OVERHEAD : Nat := 32

/-- `TIMELOCK_CIPHERTEXT_OVERHEAD` from `timelock-ffi/src/lib.rs`:
`BLS_G1_SIZE + BLS_G2_SIZE + AES_GCM_IV_SIZE + AES_GCM_TAG_SIZE +
SERIALIZATION_OVERHEAD`. -/
def TIMELOCK_CIPHERTEXT_OVERHEAD : Nat :=
  BLS_G1_SIZE + BLS_G2_SIZE + AES_GCM_IV_SIZE + AES_GCM_TAG_SIZE +
    SERIALIZATION_OVERHEAD

/-- `TimelockResult` from `timelock-ffi/src/lib.rs` (C result codes). -/
inductive TimelockResult where
  | Success
  | InvalidInput
  | EncryptionFailed
  | DecryptionFailed
  | MemoryError
  | SerializationError
  | InvalidPublicKey
  | InvalidSignature
  deriving DecidableEq, Repr

/-- The width of `usize` on the 64-bit targets the FFI crate is built for. -/
def USIZE_BOUND : Nat := 2 ^ 64

/-- `usize::checked_add`: `none` exactly when the mathematical sum does not
fit in a `usize`. -/
def checked_add (a b : Nat) : Option Nat :=
  if a + b < USIZE_BOUND then some (a + b) else none

/-- `timelock_estimate_ciphertext_size` from `timelock-ffi/src/lib.rs`
(the non-null-pointer path; the null check on `estimated_size_out` is a
property of raw pointers and is not part of the size computation).  Returns
the result code together with the value written through
`estimated_size_out` (`none` when nothing is written). -/
def timelock_estimate_ciphertext_size (message_len : Nat) :
    TimelockResult × Option Nat :=
  match checked_add message_len TIMELOCK_CIPHERTEXT_OVERHEAD with
  | some total => (TimelockResult.Success, some total)
  | none => (TimelockResult.InvalidInput, none)

/-- Big-endian 8-byte encoding of a `u64` (`u64::to_be_bytes`). -/
def u64_be_bytes (n : Nat) : Bytes :=
  (List.range 8).map (fun i => n / 256 ^ (7 - i) % 256)

/-! ## The pairing engine environment

`EngineBLS` (`timelock/src/engines/engine.rs`) is a trait over a scalar field,
a public-key group, a signature group and the pairing target; the concrete
`TinyBLS381` instance binds them to BLS12-381.  The groups and the external
crypto primitives are abstracted here: `Scalar`, `PK`, `Sig`, `GT` are type
parameters and the primitive operations are fields of `Env`. -/

/-- The ambient operations the `timelock` crate imports from its
dependencies: SHA-256 (`sha2`), SHAKE-128 (`sha3`), and the `EngineBLS`
members of `TinyBLS381` (pairing, hash-to-curve, target-field serialization,
`from_be_bytes_mod_order`, the public-key-group generator). -/
structure Env (Scalar PK Sig GT : Type) where
  sha256 : Bytes → Bytes
  shake128 : Bytes → Bytes
  pairing : PK → Sig → GT
  hash_to_signature_curve : Bytes → Sig
  serializeGT : GT → Bytes
  from_be_bytes_mod_order : Bytes → Scalar
  generatorPK : PK

variable {Scalar PK Sig GT : Type}

/-- `h2` from `timelock/src/ibe/utils.rs`: serialize the pairing output in
compressed form, then SHA-256. -/
def h2 (env : Env Scalar PK Sig GT) (g : GT) : Bytes :=
  env.sha256 (env.serializeGT g)

/-- `h3` from `timelock/src/ibe/utils.rs`: SHA-256 of the concatenation,
interpreted big-endian modulo the scalar-field order. -/
def h3 (env : Env Scalar PK Sig GT) (a b : Bytes) : Scalar :=
  env.from_be_bytes_mod_order (env.sha256 (a ++ b))

/-- `h4` from `timelock/src/ibe/utils.rs`: `sha256(a)[..a.len()]`.  The Rust
slice `o[..a.len()]` panics when `a.len() > o.len()`; the panic is modelled
by `none`. -/
def h4 (env : Env Scalar PK Sig GT) (a : Bytes) : Option Bytes :=
  let o := env.sha256 a
  if a.length ≤ o.length then some (o.take a.length) else none

/-- Little-endian 8-byte encoding of a `u64` (`u64::to_le_bytes`), used by
`Message::new` for the message-length framing. -/
def u64_le_bytes (n : Nat) : Bytes :=
  (List.range 8).map (fun i => n / 256 ^ i % 256)

/-- `Message` from `timelock/src/lib.rs`: a 32-byte SHAKE-128 digest together
with the raw `context ‖ message` bytes. -/
structure Message where
  digest : Bytes
  payload : Bytes
  deriving DecidableEq, Repr

/-- `Message::new` from `timelock/src/lib.rs`: absorb `context`, the
little-endian message length, and `message` into SHAKE-128, read 32 bytes;
the second field is `[context, message].concat()`. -/
def Message.new (env : Env Scalar PK Sig GT) (context message : Bytes) :
    Message :=
  { digest :=
      (env.shake128 (context ++ u64_le_bytes message.length ++ message)).take 32,
    payload := context ++ message }

/-- `Message::hash_to_signature_curve` from `timelock/src/lib.rs`: hash the
raw `context ‖ message` bytes (field `.1`) to the signature group. -/
def Message.hash_to_signature_curve (env : Env Scalar PK Sig GT)
    (m : Message) : Sig :=
  env.hash_to_signature_curve m.payload

/-- `Identity` from `timelock/src/ibe/fullident.rs`: a wrapper around
`Message`. -/
structure Identity where
  msg : Message
  deriving DecidableEq, Repr

/-- `Identity::new` from `timelock/src/ibe/fullident.rs`. -/
def Identity.new (env : Env Scalar PK Sig GT) (ctx identity : Bytes) :
    Identity :=
  { msg := Message.new env ctx identity }

/-- `Identity::public` from `timelock/src/ibe/fullident.rs`: the hash-to-curve
image of the identity in the signature group. -/
def Identity.public (env : Env Scalar PK Sig GT) (i : Identity) : Sig :=
  Message.hash_to_signature_curve env i.msg

/-- `IBESecret` from `timelock/src/ibe/fullident.rs`: a signature-group point
(the output of `extract`, i.e. a BLS signature). -/
structure IBESecret (Sig : Type) where
  point : Sig
  deriving DecidableEq, Repr

/-- `Identity::extract` from `timelock/src/ibe/fullident.rs`:
`IBESecret(public * sk)`. -/
def Identity.extract [SMul Scalar Sig] (env : Env Scalar PK Sig GT)
    (i : Identity) (sk : Scalar) : IBESecret Sig :=
  { point := sk • Identity.public env i }

/-- `Ciphertext<E>` from `timelock/src/ibe/fullident.rs`: `U = rP` in the
public-key group, `V` and `W` 32-byte masks (`Hash = [u8; 32]`, modelled as
byte lists). -/
structure Ciphertext (PK : Type) where
  u : PK
  v : Bytes
  w : Bytes
  deriving DecidableEq, Repr

/-- `Identity::encrypt` from `timelock/src/ibe/fullident.rs`.

The RNG is modelled by its output: `sigma` stands for the
`E::SECRET_KEY_SIZE = 32` bytes `rng.fill_bytes` places in `sigma`.  The body
follows the source line by line; the `cross_product_const` and `h4` calls
can panic on mis-sized inputs, so the result is an `Option` (`none` models a
panic — unreachable for 32-byte `sigma` and messages, as proved below). -/
def Identity.encrypt [SMul Scalar PK] (env : Env Scalar PK Sig GT)
    (i : Identity) (message : Input) (p_pub : PK) (sigma : Bytes) :
    Option (Ciphertext PK) :=
  let bytes := message.as_bytes
  let r : Scalar := h3 env sigma bytes
  let p := env.generatorPK
  let u := r • p
  let g_id := env.pairing (r • p_pub) (Identity.public env i)
  let v_rhs := h2 env g_id
  (cross_product_const HASH_LENGTH sigma v_rhs).bind fun v =>
    (h4 env sigma).bind fun w_rhs =>
      (cross_product_const HASH_LENGTH bytes w_rhs).bind fun w =>
        some { u := u, v := v, w := w }

/-- `IBESecret::decrypt` from `timelock/src/ibe/fullident.rs`.

Recovers `sigma` and `m`, re-derives `r` and checks `U = rP`; on mismatch
returns `Err(DecryptionFailed)`.  As in `encrypt`, `none` models a panic in
`cross_product_const`/`h4` (unreachable for well-formed ciphertexts). -/
def IBESecret.decrypt [SMul Scalar PK] [DecidableEq PK]
    (env : Env Scalar PK Sig GT) (sk : IBESecret Sig) (ct : Ciphertext PK) :
    Option (Except IbeError Bytes) :=
  let sigma_rhs := h2 env (env.pairing ct.u sk.point)
  (cross_product_const HASH_LENGTH ct.v sigma_rhs).bind fun sigma =>
    (h4 env sigma).bind fun m_rhs =>
      (cross_product_const HASH_LENGTH ct.w m_rhs).bind fun m =>
        let r : Scalar := h3 env sigma m
        let u_check := r • env.generatorPK
        if u_check = ct.u then
          some (Except.ok m)
        else
          some (Except.error IbeError.DecryptionFailed)

/-- `timelock_create_drand_identity` from `timelock-ffi/src/lib.rs`.
The output buffer is modelled as a byte list (`identity_len` is its length);
the null-pointer check is not representable on lists and is dropped, the
`identity_len < 32` check is kept.  Returns the result code and the buffer
contents after the call: the SHA-256 digest of the big-endian round number
overwrites the first 32 bytes, the rest is untouched. -/
def timelock_create_drand_identity (sha256 : Bytes → Bytes) (round_number : Nat)
    (identity_out : Bytes) : TimelockResult × Bytes :=
  if identity_out.length < 32 then
    (TimelockResult.InvalidInput, identity_out)
  else
    (TimelockResult.Success,
      (sha256 (u64_be_bytes round_number)).take 32 ++ identity_out.drop 32)

/-! ## Specification-side definitions (for refinement claims)

These follow the wording of the specification, not the source; each is
compared against the corresponding source-derived definition above. -/

/-- Modelled from the spec (section 4.3, `Identity::encrypt`, steps 1-7):
`r := H3(sigma, m32)`; `U := r * P`; `g_id := pairing(r * p_pub, Q_id)`;
`V := sigma XOR H2(g_id)`; `W := m32 XOR H4(sigma)` with
`H4(sigma) = sha256(sigma)[..32]`; return `(U, V, W)`. -/
def encryptSpec [SMul Scalar PK] (env : Env Scalar PK Sig GT) (i : Identity)
    (m32 : Bytes) (p_pub : PK) (sigma : Bytes) : Ciphertext PK :=
  let r : Scalar := h3 env sigma m32
  let u := r • env.generatorPK
  let g_id := env.pairing (r • p_pub) (Identity.public env i)
  let v := List.zipWith Nat.xor sigma (h2 env g_id)
  let w := List.zipWith Nat.xor m32 ((env.sha256 sigma).take 32)
  { u := u, v := v, w := w }

/-- Modelled from the spec (section 4.3, `IbeSecret::decrypt`, steps 1-4):
`sigma := V XOR H2(pairing(U, d_id))`; `m := W XOR H4(sigma)`;
`r := H3(sigma, m)`; if `r * P` differs from `U` fail `DecryptionFailed`,
else return `m`. -/
def decryptSpec [SMul Scalar PK] [DecidableEq PK] (env : Env Scalar PK Sig GT)
    (sk : IBESecret Sig) (ct : Ciphertext PK) : Except IbeError Bytes :=
  let sigma := List.zipWith Nat.xor ct.v (h2 env (env.pairing ct.u sk.point))
  let m := List.zipWith Nat.xor ct.w ((env.sha256 sigma).take 32)
  let r : Scalar := h3 env sigma m
  if r • env.generatorPK ≠ ct.u then Except.error IbeError.DecryptionFailed
  else Except.ok m

/-- Modelled from the spec (section 4.1): `xor_fixed<N>(a,b) -> [u8;N]` is the
byte-wise XOR; both inputs must be at least `N` bytes, and it fails with
`InvalidLength` otherwise. -/
def xor_fixed_spec (N : Nat) (a b : Bytes) : Except InputError Bytes :=
  if N ≤ a.length ∧ N ≤ b.length then
    Except.ok (List.zipWith Nat.xor (a.take N) (b.take N))
  else
    Except.error InputError.InvalidLength

/-! ## The FFI `timelock_decrypt` wrapper and the last-error discipline -/

/-- `set_last_error` from `timelock-ffi/src/lib.rs`: stores the message in the
thread-local slot (modelled as explicit state passing). -/
def set_last_error (message : String) (_prev : Option String) : Option String :=
  some message

/-- `clear_last_error` from `timelock-ffi/src/lib.rs`: empties the slot. -/
def clear_last_error (_prev : Option String) : Option String :=
  none

/-- The operations `timelock_decrypt` delegates to.  `hex_decode` is the `hex`
crate; point and ciphertext deserialization come from `ark-serialize`; `tld`
is `timelock::tlock::tld` (its source, `timelock/src/tlock.rs`, is outside
the provided tree, so it is abstract here — only the wrapper's control flow
is under verification).  `none` models the `Err` outcome of each step. -/
structure DecryptDeps (Sig TLE : Type) where
  hex_decode : String → Option Bytes
  deserialize_signature : Bytes → Option Sig
  deserialize_ciphertext : Bytes → Option TLE
  tld : TLE → Sig → Option Bytes

/-- Observable outcome of a `timelock_decrypt` call: the returned code, the
thread-local last-error slot after the call, the value left in
`*plaintext_len`, and the bytes copied into the output buffer (if any). -/
structure DecryptOutcome where
  result : TimelockResult
  last_error : Option String
  plaintext_len : Nat
  written : Option Bytes
  deriving DecidableEq, Repr

/-- `timelock_decrypt` from `timelock-ffi/src/lib.rs`, branch by branch.

`null_inputs` covers the four null-pointer checks on the arguments,
`ct_data_null` the null check on `ciphertext.data`, `signature_utf8` the
`CStr::to_str` outcome (`none` = invalid UTF-8), `plaintext_capacity` the
incoming `*plaintext_len`, and `last_error` the thread-local slot before the
call.  Every failure branch calls `set_last_error` with the source's message
except the buffer-too-small branch, which returns `MemoryError` after only
updating `*plaintext_len` — faithfully reproducing the source, which has no
`set_last_error` call on that path (`timelock-ffi/src/lib.rs:531-535`). -/
def timelock_decrypt {Sig TLE : Type} (deps : DecryptDeps Sig TLE)
    (null_inputs ct_data_null : Bool) (ct_data : Bytes)
    (signature_utf8 : Option String) (plaintext_capacity : Nat)
    (last_error : Option String) : DecryptOutcome :=
  if null_inputs then
    { result := TimelockResult.InvalidInput,
      last_error :=
        set_last_error "Invalid input parameters: null pointers not allowed"
          last_error,
      plaintext_len := plaintext_capacity, written := none }
  else if ct_data_null then
    { result := TimelockResult.InvalidInput,
      last_error := set_last_error "Invalid ciphertext: null data pointer"
        last_error,
      plaintext_len := plaintext_capacity, written := none }
  else
    match signature_utf8 with
    | none =>
      { result := TimelockResult.InvalidInput,
        last_error := set_last_error "Invalid UTF-8 in signature hex string"
          last_error,
        plaintext_len := plaintext_capacity, written := none }
    | some signature_cstr =>
      match deps.hex_decode signature_cstr with
      | none =>
        { result := TimelockResult.InvalidSignature,
          last_error := set_last_error "Invalid hex encoding in signature"
            last_error,
          plaintext_len := plaintext_capacity, written := none }
      | some signature_bytes =>
        match deps.deserialize_signature signature_bytes with
        | none =>
          { result := TimelockResult.InvalidSignature,
            last_error := set_last_error "Failed to deserialize BLS signature"
              last_error,
            plaintext_len := plaintext_capacity, written := none }
        | some signature =>
          match deps.deserialize_ciphertext ct_data with
          | none =>
            { result := TimelockResult.SerializationError,
              last_error := set_last_error "Failed to deserialize ciphertext"
                last_error,
              plaintext_len := plaintext_capacity, written := none }
          | some timelock_ciphertext =>
            match deps.tld timelock_ciphertext signature with
            | none =>
              { result := TimelockResult.DecryptionFailed,
                last_error := set_last_error
                  "Timelock decryption failed: signature may be invalid, round may be in the future, or ciphertext may be corrupted"
                  last_error,
                plaintext_len := plaintext_capacity, written := none }
            | some plaintext_result =>
              if plaintext_capacity < plaintext_result.length then
                { result := TimelockResult.MemoryError,
                  last_error := last_error,
                  plaintext_len := plaintext_result.length, written := none }
              else
                { result := TimelockResult.Success,
                  last_error := clear_last_error last_error,
                  plaintext_len := plaintext_result.length,
                  written := some plaintext_result }

/-! ## Concrete instances used by the witness theorems -/

/-- A concrete stand-in for SHA-256 used by witnesses: always 32 bytes. -/
def shaTest : Bytes → Bytes := fun b => List.replicate 32 (b.length % 256)

/-- A concrete environment over `ZMod 5` with `pairing p q = p * q` (which is
bilinear for the multiplication action), used to instantiate the generic
theorems in witnesses. -/
def env5 : Env (ZMod 5) (ZMod 5) (ZMod 5) (ZMod 5) :=
  { sha256 := shaTest,
    shake128 := fun _ => List.replicate 32 0,
    pairing := fun p q => p * q,
    hash_to_signature_curve := fun b => (b.length : ZMod 5),
    serializeGT := fun _ => [],
    from_be_bytes_mod_order := fun b => ((b.headD 0 : Nat) : ZMod 5),
    generatorPK := 1 }

/-- Dependencies for `timelock_decrypt` in which every delegated step
succeeds and the recovered plaintext has 32 bytes. -/
def depsOk : DecryptDeps Unit Unit :=
  { hex_decode := fun _ => some [],
    deserialize_signature := fun _ => some (),
    deserialize_ciphertext := fun _ => some (),
    tld := fun _ _ => some (List.replicate 32 0) }

/-! ## Helper lemmas -/

/-- XOR-masking with `b` is undone by XOR-ing with `b` again (byte lists of
equal length). -/
theorem zipWith_xor_cancel (a b : Bytes) (h : a.length = b.length) :
    List.zipWith Nat.xor (List.zipWith Nat.xor a b) b = a := by
  induction a generalizing b with
  | nil => simp
  | cons x xs ih =>
    cases b with
    | nil => simp at h
    | cons y ys =>
      simp only [List.zipWith_cons_cons, List.length_cons] at h ⊢
      rw [ih ys (by omega)]
      exact congrArg (fun z => z :: xs) (Nat.xor_cancel_right y x)

/-- `cross_product_const` on two buffers of exactly `N` bytes: no panic, and
the result is their byte-wise XOR. -/
theorem cross_product_const_some (N : Nat) (a b : Bytes)
    (ha : a.length = N) (hb : b.length = N) :
    cross_product_const N a b = some (List.zipWith Nat.xor a b) := by
  unfold cross_product_const
  rw [if_pos ⟨ha.ge, hb.ge⟩, List.take_of_length_le ha.le,
    List.take_of_length_le hb.le]

/-- `h4` does not panic when the input is no longer than its digest. -/
theorem h4_some (env : Env Scalar PK Sig GT) (a : Bytes)
    (h : a.length ≤ (env.sha256 a).length) :
    h4 env a = some ((env.sha256 a).take a.length) := by
  unfold h4
  rw [if_pos h]

/-- Evaluation of `Identity.encrypt` on a 32-byte message and 32-byte
`sigma`: no branch panics and the ciphertext is the expected triple. -/
theorem encrypt_eval [SMul Scalar PK] (env : Env Scalar PK Sig GT)
    (hsha : ∀ b, (env.sha256 b).length = 32)
    (i : Identity) (m sigma : Bytes) (p_pub : PK)
    (hm : m.length = 32) (hsig : sigma.length = 32) :
    Identity.encrypt env i { data := m } p_pub sigma =
      some { u := h3 env sigma m • env.generatorPK,
             v := List.zipWith Nat.xor sigma
                 (h2 env (env.pairing (h3 env sigma m • p_pub)
                   (Identity.public env i))),
             w := List.zipWith Nat.xor m (env.sha256 sigma) } := by
  have hh2 :
      (h2 env (env.pairing (h3 env sigma m • p_pub)
        (Identity.public env i))).length = 32 := hsha _
  simp only [Identity.encrypt, Input.as_bytes]
  rw [cross_product_const_some HASH_LENGTH sigma _ hsig hh2]
  simp only [Option.some_bind]
  rw [h4_some env sigma (by rw [hsig, hsha])]
  simp only [Option.some_bind]
  rw [hsig, List.take_of_length_le (hsha sigma).le,
    cross_product_const_some HASH_LENGTH m _ hm (hsha _)]
  simp only [Option.some_bind]

/-- Evaluation of `IBESecret.decrypt` on a ciphertext with 32-byte `V` and
`W`: no branch panics and the result is the re-derivation check. -/
theorem decrypt_eval [SMul Scalar PK] [DecidableEq PK]
    (env : Env Scalar PK Sig GT)
    (hsha : ∀ b, (env.sha256 b).length = 32)
    (sk : IBESecret Sig) (ct : Ciphertext PK)
    (hv : ct.v.length = 32) (hw : ct.w.length = 32) :
    IBESecret.decrypt env sk ct =
      (if h3 env
            (List.zipWith Nat.xor ct.v (h2 env (env.pairing ct.u sk.point)))
            (List.zipWith Nat.xor ct.w
              (env.sha256
                (List.zipWith Nat.xor ct.v
                  (h2 env (env.pairing ct.u sk.point))))) •
            env.generatorPK = ct.u then
        some (Except.ok (List.zipWith Nat.xor ct.w
          (env.sha256
            (List.zipWith Nat.xor ct.v
              (h2 env (env.pairing ct.u sk.point))))))
      else
        some (Except.error IbeError.DecryptionFailed)) := by
  have hh2 : (h2 env (env.pairing ct.u sk.point)).length = 32 := hsha _
  have hslen :
      (List.zipWith Nat.xor ct.v
        (h2 env (env.pairing ct.u sk.point))).length = 32 := by
    rw [List.length_zipWith, hv, hh2]
    simp
  simp only [IBESecret.decrypt]
  rw [cross_product_const_some HASH_LENGTH ct.v _ hv hh2]
  simp only [Option.some_bind]
  rw [h4_some env _ (by rw [hslen, hsha])]
  simp only [Option.some_bind]
  rw [hslen, List.take_of_length_le (hsha _).le,
    cross_product_const_some HASH_LENGTH ct.w _ hw (hsha _)]
  simp only [Option.some_bind]

/-- Bilinearity lets the two pairing evaluations of the round trip agree:
`e(rP, msk Q) = e(r(msk P), Q)`. -/
theorem pairing_swap [CommMonoid Scalar] [SMul Scalar PK] [SMul Scalar Sig]
    [MulAction Scalar GT] (env : Env Scalar PK Sig GT)
    (hpairL : ∀ (s : Scalar) (p : PK) (q : Sig),
      env.pairing (s • p) q = s • env.pairing p q)
    (hpairR : ∀ (s : Scalar) (p : PK) (q : Sig),
      env.pairing p (s • q) = s • env.pairing p q)
    (r msk : Scalar) (P : PK) (Q : Sig) :
    env.pairing (r • P) (msk • Q) = env.pairing (r • (msk • P)) Q := by
  rw [hpairR, hpairL, hpairL, hpairL, smul_smul, smul_smul, mul_comm]

/-! ## Claim theorems -/

/-- C5: for every context byte string and payload, the signature-group point
derived from `Identity::new(ctx, id_bytes)` via `Identity::public` is
`hash_to_signature_curve(ctx ++ id_bytes)`. -/
theorem identity_public_is_hash_of_concat (env : Env Scalar PK Sig GT)
    (ctx id_bytes : Bytes) :
    Identity.public env (Identity.new env ctx id_bytes) =
      env.hash_to_signature_curve (ctx ++ id_bytes) := rfl

/-- C10: `Input::new` returns `Ok` for every 32-byte array; the
`InputError::InvalidLength` variant is never produced. -/
theorem input_new_always_ok (data : Bytes) (_hdata : data.length = 32) :
    Input.new data = Except.ok { data := data } := rfl

/-- Witness for C10 at a concrete 32-byte array. -/
theorem input_new_always_ok_check :
    Input.new (List.replicate 32 0) =
      Except.ok { data := List.replicate 32 0 } :=
  input_new_always_ok (List.replicate 32 0) (by simp)

/-- Counterexample to C4 as stated: at `message_len = 0` the function writes
`204 = TIMELOCK_CIPHERTEXT_OVERHEAD` (48 + 96 + 12 + 16 + 32), not
`0 + 220`. -/
theorem estimate_ciphertext_size_not_220 :
    timelock_estimate_ciphertext_size 0 ≠
      (TimelockResult.Success, some (0 + 220)) := by
  decide

/-- C4 (amended): for every `message_len`, when `message_len + 204` fits in a
`usize` the function succeeds and writes `message_len + 204`; when the
addition would overflow it returns `InvalidInput` and writes nothing. -/
theorem estimate_ciphertext_size_adds_204 (message_len : Nat) :
    (message_len + TIMELOCK_CIPHERTEXT_OVERHEAD < USIZE_BOUND →
      timelock_estimate_ciphertext_size message_len =
        (TimelockResult.Success, some (message_len + 204))) ∧
    (USIZE_BOUND ≤ message_len + TIMELOCK_CIPHERTEXT_OVERHEAD →
      timelock_estimate_ciphertext_size message_len =
        (TimelockResult.InvalidInput, none)) := by
  unfold timelock_estimate_ciphertext_size checked_add
  constructor <;> intro h
  · rw [if_pos h]
    rfl
  · rw [if_neg (by omega)]

/-- Witness for C4: the in-range and overflow cases at concrete lengths. -/
theorem estimate_ciphertext_size_adds_204_check :
    timelock_estimate_ciphertext_size 100 =
      (TimelockResult.Success, some 304) ∧
    timelock_estimate_ciphertext_size (2 ^ 64 - 1) =
      (TimelockResult.InvalidInput, none) :=
  ⟨(estimate_ciphertext_size_adds_204 100).1 (by decide),
   (estimate_ciphertext_size_adds_204 (2 ^ 64 - 1)).2 (by decide)⟩

/-- Counterexample to C7 as stated: on empty inputs the fixed-width XOR
panics (out-of-bounds slice, modelled by `none`); it does not return the
`InvalidLength` error the claim (and the spec-side `xor_fixed_spec`)
prescribe — its Rust type `fn(&[u8], &[u8]) -> [u8; N]` has no error
channel at all. -/
theorem cross_product_const_short_panics :
    cross_product_const 32 [] [] = none ∧
      xor_fixed_spec 32 [] [] = Except.error InputError.InvalidLength :=
  ⟨rfl, rfl⟩

/-- C7 (amended): if `a` or `b` has fewer than `N` bytes,
`cross_product_const::<N>` panics on an out-of-bounds slice (modelled by
`none`) instead of returning an `InvalidLength` error; on inputs of at
least `N` bytes it returns the byte-wise XOR of their first `N` bytes. -/
theorem cross_product_const_behavior (N : Nat) (a b : Bytes) :
    (a.length < N ∨ b.length < N → cross_product_const N a b = none) ∧
    (N ≤ a.length → N ≤ b.length →
      cross_product_const N a b =
        some (List.zipWith Nat.xor (a.take N) (b.take N))) := by
  unfold cross_product_const
  constructor
  · intro h
    rw [if_neg (by omega)]
  · intro h1 h2
    rw [if_pos ⟨h1, h2⟩]

/-- Witness for C7 on concrete inputs of sufficient length. -/
theorem cross_product_const_behavior_check :
    cross_product_const 2 [1, 2, 3] [4, 5] = some [5, 7] := by
  have h := (cross_product_const_behavior 2 [1, 2, 3] [4, 5]).2
    (by decide) (by decide)
  simpa using h

/-- C8: evaluating `timelock_decrypt` at an input where every delegated step
succeeds but the caller's buffer is too small: the function returns
`MemoryError` (a non-`Success` code) with the thread-local last-error slot
left untouched (here: still empty), contradicting the claimed
set-on-every-failure discipline.  All other failure branches do set the
message. -/
theorem timelock_decrypt_memory_error_skips_last_error :
    timelock_decrypt depsOk false false [] (some "") 0 none =
      { result := TimelockResult.MemoryError, last_error := none,
        plaintext_len := 32, written := none } := rfl

/-- The concrete SHA-256 stand-in of `env5` always has 32 bytes. -/
theorem env5_sha_len : ∀ b : Bytes, (env5.sha256 b).length = 32 :=
  fun _ => by simp [env5, shaTest]

/-- `env5.pairing` is left-bilinear for the multiplication action. -/
theorem env5_pair_left :
    ∀ (s p q : ZMod 5), env5.pairing (s • p) q = s • env5.pairing p q :=
  fun s p q => by simp [env5, smul_eq_mul, mul_assoc]

/-- `env5.pairing` is right-bilinear for the multiplication action. -/
theorem env5_pair_right :
    ∀ (s p q : ZMod 5), env5.pairing p (s • q) = s • env5.pairing p q :=
  fun s p q => by
    simp only [env5, smul_eq_mul]
    ring

/-- C2: `Identity::encrypt` computes exactly the spec's triple: it samples a
32-byte `sigma` (modelled by the `sigma` parameter with `hsig`), sets
`r = H3(sigma, m32)`, and returns `(U, V, W)` with `U = r * P`,
`V = sigma XOR H2(pairing(r * p_pub, Q_id))` and `W = m32 XOR H4(sigma)`
(no panic occurs). -/
theorem encrypt_matches_spec [SMul Scalar PK] (env : Env Scalar PK Sig GT)
    (hsha : ∀ b, (env.sha256 b).length = 32)
    (i : Identity) (m sigma : Bytes) (p_pub : PK)
    (hm : m.length = 32) (hsig : sigma.length = 32) :
    Identity.encrypt env i { data := m } p_pub sigma =
      some (encryptSpec env i m p_pub sigma) := by
  rw [encrypt_eval env hsha i m sigma p_pub hm hsig]
  simp only [encryptSpec]
  rw [List.take_of_length_le (hsha sigma).le]

/-- Witness for C2 at a concrete message, key and RNG output over `env5`. -/
theorem encrypt_matches_spec_check :
    Identity.encrypt env5 (Identity.new env5 [] [1])
        { data := List.replicate 32 7 } 3 (List.replicate 32 9) =
      some (encryptSpec env5 (Identity.new env5 [] [1])
        (List.replicate 32 7) 3 (List.replicate 32 9)) :=
  encrypt_matches_spec env5 env5_sha_len (Identity.new env5 [] [1])
    (List.replicate 32 7) (List.replicate 32 9) 3 (by simp) (by simp)

/-- C3: `IBESecret::decrypt` computes `sigma = V XOR H2(e(U, d_id))`,
`m = W XOR H4(sigma)`, `r = H3(sigma, m)`, and returns
`Err(DecryptionFailed)` exactly when `r * P` differs from `U`, `Ok(m)`
otherwise (no panic occurs on 32-byte `V`, `W`). -/
theorem decrypt_matches_spec [SMul Scalar PK] [DecidableEq PK]
    (env : Env Scalar PK Sig GT)
    (hsha : ∀ b, (env.sha256 b).length = 32)
    (sk : IBESecret Sig) (ct : Ciphertext PK)
    (hv : ct.v.length = 32) (hw : ct.w.length = 32) :
    IBESecret.decrypt env sk ct = some (decryptSpec env sk ct) := by
  rw [decrypt_eval env hsha sk ct hv hw]
  simp only [decryptSpec]
  rw [List.take_of_length_le (hsha _).le]
  simp only [ne_eq, ite_not, apply_ite Option.some]

/-- Witness for C3 at a concrete secret and ciphertext over `env5`. -/
theorem decrypt_matches_spec_check :
    IBESecret.decrypt env5 { point := 2 }
        { u := 1, v := List.replicate 32 4, w := List.replicate 32 5 } =
      some (decryptSpec env5 { point := 2 }
        { u := 1, v := List.replicate 32 4, w := List.replicate 32 5 }) :=
  decrypt_matches_spec env5 env5_sha_len { point := 2 }
    { u := 1, v := List.replicate 32 4, w := List.replicate 32 5 }
    (by simp) (by simp)

/-- C1: the IBE round trip.  For every 32-byte message, every identity,
every master secret `msk` and every RNG output `sigma`, decrypting
`encrypt(m, p_pub = msk * P, sigma)` with the extracted secret
`extract(msk) = msk * Q_id` returns `Ok(m)`.  The hash lengths and the
bilinearity of the pairing are the only assumptions. -/
theorem ibe_roundtrip [CommMonoid Scalar] [SMul Scalar PK] [SMul Scalar Sig]
    [MulAction Scalar GT] [DecidableEq PK] (env : Env Scalar PK Sig GT)
    (hsha : ∀ b, (env.sha256 b).length = 32)
    (hpairL : ∀ (s : Scalar) (p : PK) (q : Sig),
      env.pairing (s • p) q = s • env.pairing p q)
    (hpairR : ∀ (s : Scalar) (p : PK) (q : Sig),
      env.pairing p (s • q) = s • env.pairing p q)
    (i : Identity) (msk : Scalar) (m sigma : Bytes)
    (hm : m.length = 32) (hsig : sigma.length = 32) :
    (Identity.encrypt env i { data := m } (msk • env.generatorPK) sigma).bind
        (fun ct => IBESecret.decrypt env (Identity.extract env i msk) ct) =
      some (Except.ok m) := by
  have hA : (h2 env (env.pairing
      (h3 env sigma m • (msk • env.generatorPK))
      (Identity.public env i))).length = 32 := hsha _
  have hS : (env.sha256 sigma).length = 32 := hsha _
  have hv : (List.zipWith Nat.xor sigma
      (h2 env (env.pairing (h3 env sigma m • (msk • env.generatorPK))
        (Identity.public env i)))).length = 32 := by
    rw [List.length_zipWith, hsig, hA]
    simp
  have hw : (List.zipWith Nat.xor m (env.sha256 sigma)).length = 32 := by
    rw [List.length_zipWith, hm, hS]
    simp
  rw [encrypt_eval env hsha i m sigma (msk • env.generatorPK) hm hsig]
  simp only [Option.some_bind]
  rw [decrypt_eval env hsha (Identity.extract env i msk) _ hv hw]
  simp only [Identity.extract]
  rw [pairing_swap env hpairL hpairR (h3 env sigma m) msk env.generatorPK
    (Identity.public env i)]
  rw [zipWith_xor_cancel sigma _ (hsig.trans hA.symm)]
  rw [zipWith_xor_cancel m (env.sha256 sigma) (hm.trans hS.symm)]
  rw [if_pos rfl]

/-- Witness for C1 over `env5`: a full encrypt-then-decrypt round trip at a
concrete message, identity, master secret and RNG output. -/
theorem ibe_roundtrip_check :
    (Identity.encrypt env5 (Identity.new env5 [] [1])
        { data := List.replicate 32 7 } ((3 : ZMod 5) • env5.generatorPK)
        (List.replicate 32 9)).bind
      (fun ct => IBESecret.decrypt env5
        (Identity.extract env5 (Identity.new env5 [] [1]) 3) ct) =
      some (Except.ok (List.replicate 32 7)) :=
  ibe_roundtrip env5 env5_sha_len env5_pair_left env5_pair_right
    (Identity.new env5 [] [1]) 3 (List.replicate 32 7) (List.replicate 32 9)
    (by simp) (by simp)

/-- C9: `h4` is total exactly on inputs of at most 32 bytes: there it
returns the first `a.len()` bytes of `sha256(a)`; on longer inputs the
slice `sha256(a)[..a.len()]` is out of bounds and `h4` panics (modelled by
`none`). -/
theorem h4_total_iff_short (env : Env Scalar PK Sig GT)
    (hsha : ∀ b, (env.sha256 b).length = 32) (a : Bytes) :
    (a.length ≤ 32 → h4 env a = some ((env.sha256 a).take a.length)) ∧
    (32 < a.length → h4 env a = none) := by
  simp only [h4]
  constructor <;> intro h
  · rw [if_pos (by rw [hsha]; exact h)]
  · rw [if_neg (by rw [hsha]; omega)]

/-- Witness for C9: a short input succeeds, a 33-byte input panics. -/
theorem h4_total_iff_short_check :
    h4 env5 [5] = some ((env5.sha256 [5]).take 1) ∧
      h4 env5 (List.replicate 33 0) = none :=
  ⟨(h4_total_iff_short env5 env5_sha_len [5]).1 (by decide),
   (h4_total_iff_short env5 env5_sha_len (List.replicate 33 0)).2 (by simp)⟩

/-- C6: for every round number and every output buffer of at least 32
bytes, `timelock_create_drand_identity` succeeds and writes the SHA-256
digest of the 8-byte big-endian round number into the first 32 bytes; the
digest depends on the round number alone. -/
theorem create_drand_identity_writes_sha256 (sha256 : Bytes → Bytes)
    (hsha : ∀ b, (sha256 b).length = 32) (round_number : Nat)
    (identity_out : Bytes) (hlen : 32 ≤ identity_out.length) :
    timelock_create_drand_identity sha256 round_number identity_out =
      (TimelockResult.Success,
        sha256 (u64_be_bytes round_number) ++ identity_out.drop 32) ∧
    (timelock_create_drand_identity sha256 round_number
        identity_out).2.take 32 =
      sha256 (u64_be_bytes round_number) := by
  have h1 : timelock_create_drand_identity sha256 round_number identity_out =
      (TimelockResult.Success,
        sha256 (u64_be_bytes round_number) ++ identity_out.drop 32) := by
    simp only [timelock_create_drand_identity]
    rw [if_neg (by omega), List.take_of_length_le (hsha _).le]
  refine ⟨h1, ?_⟩
  rw [h1, List.take_append_eq_append_take,
    List.take_of_length_le (hsha _).le, hsha, Nat.sub_self, List.take_zero,
    List.append_nil]

/-- Witness for C6 at round 1000 with a 40-byte buffer. -/
theorem create_drand_identity_writes_sha256_check :
    timelock_create_drand_identity shaTest 1000 (List.replicate 40 1) =
      (TimelockResult.Success,
        shaTest (u64_be_bytes 1000) ++ (List.replicate 40 1).drop 32) ∧
    (timelock_create_drand_identity shaTest 1000
        (List.replicate 40 1)).2.take 32 =
      shaTest (u64_be_bytes 1000) :=
  create_drand_identity_writes_sha256 shaTest
    (fun _ => by simp [shaTest]) 1000 (List.replicate 40 1) (by simp)

end Timelock
